import Mathlib

/-!
Shallow embedding of `src/updateSSH.py` (class `SSHKeyImporter` and the
`__main__` argument loop).

Strings are modelled as Lean `String`s; dictionary fields that may be
missing (or set to Python `None`) are `Option String`.  Python truthiness
of such a field (`not key.get(...)`) is the predicate `falsy`.  Side
effects are made explicit: `input()` calls become an `Inputs` record,
subprocess results become function arguments, file writes become lists of
`(path, content)` pairs, and the `KeyError` raised by `writeHostFile` on a
key that skipped field resolution becomes `Except.error`.
-/

namespace UpdateSSH

/-- `c` is in `[a-z0-9]`, the character class kept by `_getShortTitle`
(line 142: everything matching `[^a-z0-9]+` is deleted). -/
def isLowerAlnum (c : Char) : Bool :=
  (('a' ≤ c) && (c ≤ 'z')) || (('0' ≤ c) && (c ≤ '9'))

/-- One left-to-right pass of `re.sub(r'(ssh(\-key)?)|[^a-z0-9]+', '', s)`
over the characters of the (already lowercased) title, line 142.
At each position the regex alternation first tries `ssh-key` (greedy `?`),
then `ssh`, then a run of non-alphanumerics; a match is deleted and
scanning resumes right after it.  (`[^a-z0-9]+` consumes a maximal run in
one match, but since matches are deleted and a non-alphanumeric character
can never start `ssh`, deleting the run one character at a time produces
the same output.) -/
def stripPass : List Char → List Char
  | 's' :: 's' :: 'h' :: '-' :: 'k' :: 'e' :: 'y' :: rest => stripPass rest
  | 's' :: 's' :: 'h' :: rest => stripPass rest
  | c :: rest => if isLowerAlnum c then c :: stripPass rest else stripPass rest
  | [] => []

/-- `str.lower()` on the title.  The titles handled by the script are
ASCII; Python's `.lower()` agrees with `Char.toLower` there. -/
def pyLower (s : String) : String := ⟨s.data.map Char.toLower⟩

/-- `SSHKeyImporter._getShortTitle` (lines 141-142):
`re.sub(r'(ssh(\-key)?)|[^a-z0-9]+', '', key['title'].lower())`. -/
def getShortTitle (title : String) : String := ⟨stripPass (pyLower title).data⟩

/-- `labels.replace(' ', ',')` (line 145): both separators become commas. -/
def replaceSpaceByComma (l : List Char) : List Char :=
  l.map fun c => if c = ' ' then ',' else c

/-- Python `str.split(',')` on the character list: `''.split(',') == ['']`,
and every comma starts a new (possibly empty) token. -/
def splitComma : List Char → List (List Char)
  | [] => [[]]
  | ',' :: rest => [] :: splitComma rest
  | c :: rest =>
    match splitComma rest with
    | t :: ts => (c :: t) :: ts
    | [] => [[c]]

/-- `SSHKeyImporter._splitLabels` (lines 144-145):
`[label for label in labels.replace(' ', ',').split(',') if label]`. -/
def splitLabels (labels : String) : List String :=
  ((splitComma (replaceSpaceByComma labels.data)).map fun l => String.mk l).filter
    fun t => t != ""

/-- Python `" ".join(xs)` (line 113). -/
def joinSpace : List String → String
  | [] => ""
  | [x] => x
  | x :: xs => x ++ " " ++ joinSpace xs

/-- Python `"\n".join(xs)` (line 130). -/
def joinNewline : List String → String
  | [] => ""
  | [x] => x
  | x :: xs => x ++ "\n" ++ joinNewline xs

/-- An item as returned by `op item list` (line 44): only the fields the
script reads before the per-item fetch.  A listing item has no `url`,
`user`, `labels` or `public key` dictionary entry. -/
structure RawItem where
  id : String
  title : String
  deriving DecidableEq

/-- The field map returned by `_getPublicKey` (lines 135-139) and merged
into the item dict by `key.update(...)` (line 51).  `none` models a label
that is absent (or whose `value` is `None`). -/
structure FetchedFields where
  url : Option String := none
  user : Option String := none
  labels : Option String := none
  publicKey : Option String := none
  deriving DecidableEq

/-- The item dict after a successful fetch merge (line 51). -/
structure FetchedKey where
  id : String
  title : String
  url : Option String
  user : Option String
  labels : Option String
  publicKey : Option String
  deriving DecidableEq

def mergeFetch (r : RawItem) (f : FetchedFields) : FetchedKey :=
  { id := r.id, title := r.title, url := f.url, user := f.user,
    labels := f.labels, publicKey := f.publicKey }

/-- Python truthiness test `not key.get(field)` for an optional string
field: missing, `None`, and `''` are all falsy. -/
def falsy : Option String → Bool
  | none => true
  | some s => s == ""

/-- The three policy settings passed to `SSHKeyImporter.__init__`
(lines 22-25). -/
structure Config where
  useraction : String
  urlaction : String
  labelsaction : String
  deriving DecidableEq

/-- The values a key's `input()` prompts would return (lines 75, 84, 96),
one per promptable field. -/
structure Inputs where
  urlInput : String := ""
  userInput : String := ""
  labelsInput : String := ""
  deriving DecidableEq

/-- The item dict once `handleMissingFields` has run: `url` and `user` are
always set (possibly to `''`) and `labels` is a list. -/
structure ResolvedKey where
  id : String
  title : String
  url : String
  user : String
  labels : List String
  publicKey : Option String
  deriving DecidableEq

/-- `SSHKeyImporter.handleMissingFields` (lines 70-103).  `url` is resolved
first and its resolved value feeds the labels default (line 93); the
bookkeeping `updated_fields` entry is never read downstream and is not
modelled. -/
def handleMissingFields (cfg : Config) (inp : Inputs) (k : FetchedKey) : ResolvedKey :=
  let url :=
    if falsy k.url then
      if cfg.urlaction == "prompt" then inp.urlInput else ""
    else k.url.getD ""
  let user :=
    if falsy k.user then
      if cfg.useraction == "prompt" then inp.userInput
      else if cfg.useraction == "leave-empty" then ""
      else cfg.useraction
    else k.user.getD ""
  let labels :=
    if falsy k.labels then
      let defaults := [getShortTitle k.title, url]
      if cfg.labelsaction == "prompt" then
        let entered := splitLabels inp.labelsInput
        if entered.isEmpty then defaults else entered
      else defaults
    else splitLabels (k.labels.getD "")
  { id := k.id, title := k.title, url := url, user := user,
    labels := labels, publicKey := k.publicKey }

/-- A key as it sits in `self.keys` after `getKeyList` (lines 49-54):
either the per-item fetch succeeded and `handleMissingFields` ran, or
`op item get` failed and the `continue` left the raw listing item in
place, unresolved. -/
inductive ProcessedKey where
  | resolved (k : ResolvedKey)
  | raw (r : RawItem)
  deriving DecidableEq

/-- The per-item body of `getKeyList`'s loop (lines 49-54), with the fetch
subprocess modelled as `fetch : RawItem → Option FetchedFields` (`none` =
`CalledProcessError`, i.e. non-zero exit). -/
def processItem (cfg : Config) (inp : RawItem → Inputs)
    (fetch : RawItem → Option FetchedFields) (r : RawItem) : ProcessedKey :=
  match fetch r with
  | none => ProcessedKey.raw r
  | some f => ProcessedKey.resolved (handleMissingFields cfg (inp r) (mergeFetch r f))

/-- `getKeyList` (lines 40-55) applied to the parsed listing JSON. -/
def getKeyList (cfg : Config) (inp : RawItem → Inputs)
    (fetch : RawItem → Option FetchedFields) (items : List RawItem) : List ProcessedKey :=
  items.map (processItem cfg inp fetch)

/-- The export path chosen by `exportKeys` (line 64):
`os.path.join(EXPORT_PUBKEY_DIR, self._getShortTitle(key)) + '.pub'`.
`dir` stands for `EXPORT_PUBKEY_DIR`. -/
def exportPath (dir : String) (title : String) : String :=
  dir ++ "/" ++ getShortTitle title ++ ".pub"

/-- `SSHKeyImporter.exportKeys` (lines 57-68) as the ordered list of file
writes it performs: one `(path, contents)` pair per key whose dict has a
`'public key'` entry; keys left raw by a failed fetch have none and are
skipped. -/
def exportWrites (dir : String) (keys : List ProcessedKey) : List (String × String) :=
  keys.filterMap fun pk =>
    match pk with
    | ProcessedKey.raw _ => none
    | ProcessedKey.resolved k =>
      match k.publicKey with
      | some pub => some (exportPath dir k.title, pub)
      | none => none

/-- The filesystem contents after a list of writes, later writes
overwriting earlier ones at the same path. -/
def applyWrites : List (String × String) → (String → Option String) → (String → Option String)
  | [], fs => fs
  | (p, c) :: ws, fs => applyWrites ws (fun q => if q = p then some c else fs q)

/-- Final contents of the export directory produced by `exportKeys`,
starting from an empty directory. -/
def finalFiles (dir : String) (keys : List ProcessedKey) : String → Option String :=
  applyWrites (exportWrites dir keys) (fun _ => none)

/-- The `Host` block `writeHostFile` builds for one resolved key
(lines 113-122).  `key['fileName']` was set by `exportKeys` (line 64) to
`exportPath dir title` for every key with a public key, so the
`IdentityFile` line reproduces that path.  `agent` is `self.identityAgent`
(lines 27-32), `none` on platforms other than linux/darwin. -/
def renderHost (dir : String) (agent : Option String) (k : ResolvedKey) : List String :=
  ["Host " ++ joinSpace k.labels]
  ++ (if k.url != "" then ["  HostName " ++ k.url] else [])
  ++ (match k.publicKey with
      | some _ => ["  IdentityFile " ++ exportPath dir k.title, "  IdentitiesOnly yes"]
      | none => [])
  ++ (if k.user != "" then ["  User " ++ k.user] else [])
  ++ (match agent with
      | some a => ["  IdentityAgent " ++ a]
      | none => [])

/-- The two-line comment header (lines 108-111). -/
def header : List String :=
  ["# This file was created by the 1Password SSH-Key importer (updateSSH.py)",
   "# Manual changes to this file will be overwritten by the script"]

/-- The block-building loop of `writeHostFile` (lines 112-122).  A key
that skipped resolution (failed fetch) has no `'labels'` dict entry, so
`key["labels"]` on line 113 raises `KeyError`; that abort is the
`Except.error`. -/
def hostBlocks (dir : String) (agent : Option String) :
    List ProcessedKey → Except String (List (List String))
  | [] => Except.ok []
  | ProcessedKey.raw _ :: _ => Except.error "KeyError: labels"
  | ProcessedKey.resolved k :: rest =>
    match hostBlocks dir agent rest with
    | Except.ok bs => Except.ok (renderHost dir agent k :: bs)
    | Except.error e => Except.error e

/-- `SSHKeyImporter.writeHostFile` (lines 106-131): the config file's byte
content, or the `KeyError` abort.  Blocks of length 1 (a bare `Host` line)
are skipped (lines 128-129); each written block is joined with newlines
and followed by a blank line (lines 130-131). -/
def writeHostFile (dir : String) (agent : Option String)
    (keys : List ProcessedKey) : Except String String :=
  match hostBlocks dir agent keys with
  | Except.error e => Except.error e
  | Except.ok bs =>
    Except.ok (String.join ((header :: bs).filterMap fun b =>
      if b.length == 1 then none else some (joinNewline b ++ "\n\n")))

/-- `SSHKeyImporter.startImport` (lines 34-38) after a successful listing:
the public-key writes of `exportKeys` followed by `writeHostFile`'s
result. -/
def runImport (cfg : Config) (inp : RawItem → Inputs)
    (fetch : RawItem → Option FetchedFields) (dir : String) (agent : Option String)
    (items : List RawItem) : List (String × String) × Except String String :=
  let keys := getKeyList cfg inp fetch items
  (exportWrites dir keys, writeHostFile dir agent keys)

/-- Python `arg.startswith(p)` (lines 172, 174, 180) over character
lists. -/
def chPre : List Char → List Char → Bool
  | [], _ => true
  | _ :: _, [] => false
  | p :: ps, c :: cs => p == c && chPre ps cs

/-- Python `arg.replace('--if-user-empty=', '')` (line 173): every
occurrence of the 16-character flag prefix in the argument is deleted,
scanning left to right. -/
def stripUserFlag : List Char → List Char
  | '-' :: '-' :: 'i' :: 'f' :: '-' :: 'u' :: 's' :: 'e' :: 'r' :: '-' :: 'e' :: 'm' :: 'p' :: 't' :: 'y' :: '=' :: rest => stripUserFlag rest
  | c :: rest => c :: stripUserFlag rest
  | [] => []

/-- Python `arg.replace('--if-url-empty=', '')` (line 175). -/
def stripUrlFlag : List Char → List Char
  | '-' :: '-' :: 'i' :: 'f' :: '-' :: 'u' :: 'r' :: 'l' :: '-' :: 'e' :: 'm' :: 'p' :: 't' :: 'y' :: '=' :: rest => stripUrlFlag rest
  | c :: rest => c :: stripUrlFlag rest
  | [] => []

/-- Python `arg.replace('--if-labels-empty=', '')` (line 181). -/
def stripLabelsFlag : List Char → List Char
  | '-' :: '-' :: 'i' :: 'f' :: '-' :: 'l' :: 'a' :: 'b' :: 'e' :: 'l' :: 's' :: '-' :: 'e' :: 'm' :: 'p' :: 't' :: 'y' :: '=' :: rest => stripLabelsFlag rest
  | c :: rest => c :: stripLabelsFlag rest
  | [] => []

/-- Outcome of the `__main__` prologue: `sys.exit(code)`, or the three
policy strings handed to `SSHKeyImporter(...)` (line 190). -/
inductive ParseResult where
  | exitCode (n : Nat)
  | run (useraction urlaction labelsaction : String)
  deriving DecidableEq

/-- The `__main__` argument loop (lines 171-188), carrying the current
`useraction`/`urlaction`/`labelsaction`.  Branches are tried in source
order; an argument matching no flag prefix exits 1 (lines 186-188), as
does a `--if-url-empty=`/`--if-labels-empty=` value outside its allowed
set (lines 176-179, 182-185).  `--if-user-empty=` accepts any value
(line 173). -/
def parseLoop : List String → String → String → String → ParseResult
  | [], ua, urla, la => ParseResult.run ua urla la
  | arg :: rest, ua, urla, la =>
    if chPre "--if-user-empty=".data arg.data then
      parseLoop rest ⟨stripUserFlag arg.data⟩ urla la
    else if chPre "--if-url-empty=".data arg.data then
      if (⟨stripUrlFlag arg.data⟩ : String) == "prompt"
          || (⟨stripUrlFlag arg.data⟩ : String) == "leave-empty" then
        parseLoop rest ua ⟨stripUrlFlag arg.data⟩ la
      else ParseResult.exitCode 1
    else if chPre "--if-labels-empty=".data arg.data then
      if (⟨stripLabelsFlag arg.data⟩ : String) == "prompt"
          || (⟨stripLabelsFlag arg.data⟩ : String) == "use-default" then
        parseLoop rest ua urla ⟨stripLabelsFlag arg.data⟩
      else ParseResult.exitCode 1
    else ParseResult.exitCode 1

/-- The `__main__` prologue (lines 148-188): `--help` anywhere in the
arguments prints usage and exits 0 (lines 149-166) before the loop;
otherwise the loop runs from the defaults `prompt`, `prompt`,
`use-default` (lines 168-170). -/
def parseArgs (argv : List String) : ParseResult :=
  if argv.contains "--help" then ParseResult.exitCode 0
  else parseLoop argv "prompt" "prompt" "use-default"

/-- The arguments on which the loop (lines 171-188) calls `sys.exit(1)`:
a `--if-url-empty=` or `--if-labels-empty=` argument whose value (as the
code computes it, deleting every occurrence of the flag prefix) is outside
the allowed set, or an argument matching no flag prefix. -/
def offending (arg : String) : Bool :=
  if chPre "--if-user-empty=".data arg.data then false
  else if chPre "--if-url-empty=".data arg.data then
    !((⟨stripUrlFlag arg.data⟩ : String) == "prompt"
      || (⟨stripUrlFlag arg.data⟩ : String) == "leave-empty")
  else if chPre "--if-labels-empty=".data arg.data then
    !((⟨stripLabelsFlag arg.data⟩ : String) == "prompt"
      || (⟨stripLabelsFlag arg.data⟩ : String) == "use-default")
  else true

deriving instance DecidableEq for Except

/-- Result of running `__main__`: an early `sys.exit` (no vault access,
no export write, no config write), or the import's outputs. -/
inductive MainResult where
  | exited (code : Nat)
  | imported (writes : List (String × String)) (config : Except String String)
  deriving DecidableEq

/-- `__main__` (lines 148-191): parse the arguments, then construct the
importer with the chosen policies and run `startImport`. -/
def mainProgram (argv : List String) (inp : RawItem → Inputs)
    (fetch : RawItem → Option FetchedFields) (dir : String) (agent : Option String)
    (items : List RawItem) : MainResult :=
  match parseArgs argv with
  | ParseResult.exitCode n => MainResult.exited n
  | ParseResult.run ua urla la =>
    let r := runImport ⟨ua, urla, la⟩ inp fetch dir agent items
    MainResult.imported r.1 r.2

/-! ### Helper lemmas -/

theorem str_append_empty (s : String) : s ++ "" = s := by
  cases s with
  | mk l => exact congrArg String.mk (List.append_nil l)

theorem str_append_assoc (a b c : String) : a ++ b ++ c = a ++ (b ++ c) := by
  cases a with
  | mk x =>
    cases b with
    | mk y =>
      cases c with
      | mk z => exact congrArg String.mk (List.append_assoc x y z)

theorem mem_ite_singleton {α : Type} {c : Prop} [Decidable c] {line x : α}
    (h : line ∈ if c then [x] else []) : line = x := by
  split at h
  · exact List.mem_singleton.mp h
  · exact absurd h (List.not_mem_nil line)

theorem chPre_idlines_host (t : String) :
    chPre "  IdentityFile".data ("Host " ++ t).data = false ∧
    chPre "  IdentitiesOnly".data ("Host " ++ t).data = false := by
  cases t with
  | mk l => exact ⟨rfl, rfl⟩

theorem chPre_idlines_hostName (t : String) :
    chPre "  IdentityFile".data ("  HostName " ++ t).data = false ∧
    chPre "  IdentitiesOnly".data ("  HostName " ++ t).data = false := by
  cases t with
  | mk l => exact ⟨rfl, rfl⟩

theorem chPre_idlines_user (t : String) :
    chPre "  IdentityFile".data ("  User " ++ t).data = false ∧
    chPre "  IdentitiesOnly".data ("  User " ++ t).data = false := by
  cases t with
  | mk l => exact ⟨rfl, rfl⟩

theorem chPre_idlines_agent (t : String) :
    chPre "  IdentityFile".data ("  IdentityAgent " ++ t).data = false ∧
    chPre "  IdentitiesOnly".data ("  IdentityAgent " ++ t).data = false := by
  cases t with
  | mk l => exact ⟨rfl, rfl⟩

/-! ### Claim theorems -/

/-- C1: the spec says a per-item fetch failure only skips that item, with
the run carrying on.  The skip in `getKeyList` (line 53) also skips
`handleMissingFields`, so the raw listing item has no `labels` entry and
`writeHostFile` aborts with a `KeyError` at line 113.  Concretely: item
`1` fetches fine and is exported, item `2`'s fetch fails; the public key
of item `1` is written but the config write aborts instead of skipping
item `2`. -/
theorem fetchFailure_aborts_configWrite :
    runImport ⟨"leave-empty", "leave-empty", "use-default"⟩ (fun _ => ⟨"", "", ""⟩)
        (fun r => if r.id == "1" then
            some { url := some "db.example.com", publicKey := some "PUB1" }
          else none)
        "/exports" none [⟨"1", "Good Key"⟩, ⟨"2", "Bad Key"⟩] =
      ([("/exports/goodkey.pub", "PUB1")], Except.error "KeyError: labels") := by
  rfl

/-- C2 (corrected): sanitization is not idempotent.  Deleting the `-` of
`"s-sh"` glues a fresh `"ssh"` together, which a second application then
deletes. -/
theorem getShortTitle_twice_ne :
    getShortTitle (getShortTitle "s-sh") ≠ getShortTitle "s-sh" := by
  decide

/-- C2 (amended): `_getShortTitle` is deterministic (a pure function of
the title), but applying it twice does not always equal applying it once:
`"s-sh"` sanitizes to `"ssh"`, which sanitizes to `""`. -/
theorem getShortTitle_not_idempotent :
    getShortTitle "s-sh" = "ssh" ∧ getShortTitle (getShortTitle "s-sh") = "" ∧
    ¬ ∀ s : String, getShortTitle (getShortTitle s) = getShortTitle s := by
  refine ⟨rfl, rfl, fun h => ?_⟩
  exact absurd (h "s-sh") (by decide)

/-- C3 (corrected): a present labels string made only of separators is
truthy in Python, so `handleMissingFields` takes the `_splitLabels`
branch (line 103), which drops every token and leaves an empty label
list. -/
theorem separatorOnlyLabels_resolveEmpty :
    (handleMissingFields ⟨"leave-empty", "leave-empty", "use-default"⟩ ⟨"", "", ""⟩
        { id := "1", title := "Server 1", url := some "db.example.com",
          user := some "root", labels := some ",", publicKey := some "PUB" }).labels
      = [] := by
  rfl

/-- C3 (amended): when the labels field is missing, `None`, or the empty
string, the resolved label list is never empty: the non-prompt branch
uses the two-element default, and the prompt branch falls back to that
default whenever the entered list splits to nothing (`or defaults`,
line 96). -/
theorem labels_nonempty_of_missing (cfg : Config) (inp : Inputs) (k : FetchedKey)
    (hl : falsy k.labels = true) :
    (handleMissingFields cfg inp k).labels ≠ [] := by
  simp only [handleMissingFields, hl, if_true]
  split
  · split
    · simp
    · rename_i hne
      rw [Ne, ← List.isEmpty_iff]
      simp [hne]
  · simp

theorem labels_nonempty_of_missing_witness :
    falsy (none : Option String) = true ∧
    (handleMissingFields ⟨"leave-empty", "leave-empty", "use-default"⟩ ⟨"", "", ""⟩
        { id := "1", title := "Server 1", url := some "db.example.com",
          user := none, labels := none, publicKey := some "PUB" }).labels ≠ [] :=
  ⟨rfl, labels_nonempty_of_missing ⟨"leave-empty", "leave-empty", "use-default"⟩
    ⟨"", "", ""⟩
    { id := "1", title := "Server 1", url := some "db.example.com",
      user := none, labels := none, publicKey := some "PUB" } rfl⟩

/-- C4 (corrected): the spec's example output drops one `d`; the code
keeps both the `d` of `prod` and the `d` of `db`. -/
theorem shortTitle_example_ne_spec :
    getShortTitle "My-SSH-Key: prod db" ≠ "myprodb" := by
  decide

/-- C4 (amended): the title `"My-SSH-Key: prod db"` sanitizes to
`"myproddb"`: lowercased, `ssh-key` deleted, and each non-alphanumeric
run deleted. -/
theorem shortTitle_example :
    getShortTitle "My-SSH-Key: prod db" = "myproddb" := by
  rfl

/-- C6: for an item whose labels field is missing or empty, any
non-prompt labels policy resolves the labels to exactly the two-element
list `[short-title, resolved URL]` (lines 93, 98). -/
theorem missingLabels_default (cfg : Config) (inp : Inputs) (k : FetchedKey)
    (hl : falsy k.labels = true) (hp : cfg.labelsaction ≠ "prompt") :
    (handleMissingFields cfg inp k).labels =
      [getShortTitle k.title, (handleMissingFields cfg inp k).url] := by
  have hpb : (cfg.labelsaction == "prompt") = false := beq_eq_false_iff_ne.mpr hp
  simp [handleMissingFields, hl, hpb]

theorem missingLabels_default_witness :
    falsy (none : Option String) = true ∧ "use-default" ≠ "prompt" ∧
    (handleMissingFields ⟨"leave-empty", "leave-empty", "use-default"⟩ ⟨"", "", ""⟩
        { id := "1", title := "My Web Server", url := some "db.example.com",
          user := none, labels := none, publicKey := some "PUB" }).labels =
      ["mywebserver", "db.example.com"] := by
  refine ⟨rfl, by decide, ?_⟩
  have h := missingLabels_default ⟨"leave-empty", "leave-empty", "use-default"⟩
    ⟨"", "", ""⟩
    { id := "1", title := "My Web Server", url := some "db.example.com",
      user := none, labels := none, publicKey := some "PUB" } rfl (by decide)
  rw [h]
  rfl

/-- C5: a resolved record without a `'public key'` entry gets no
`IdentityFile` and no `IdentitiesOnly` line in its `Host` block
(lines 116-118 are guarded by `'public key' in key`), yet when its URL is
non-empty the block still carries the `HostName` line and has more than
the bare `Host` line, so `writeHostFile` writes it (lines 128-129). -/
theorem noPublicKey_noIdentityFile (dir : String) (agent : Option String)
    (k : ResolvedKey) (hpk : k.publicKey = none) :
    (∀ line ∈ renderHost dir agent k,
        chPre "  IdentityFile".data line.data = false ∧
        chPre "  IdentitiesOnly".data line.data = false) ∧
    (k.url ≠ "" →
        ("  HostName " ++ k.url) ∈ renderHost dir agent k ∧
        1 < (renderHost dir agent k).length) := by
  constructor
  · intro line hline
    simp only [renderHost, hpk, List.append_nil, List.nil_append, List.mem_append,
      List.mem_singleton] at hline
    rcases hline with (((rfl | h) | h) | h)
    · exact chPre_idlines_host _
    · have hx := mem_ite_singleton h
      subst hx
      exact chPre_idlines_hostName _
    · have hx := mem_ite_singleton h
      subst hx
      exact chPre_idlines_user _
    · cases agent with
      | none => exact absurd h (List.not_mem_nil line)
      | some a =>
        have hx := List.mem_singleton.mp h
        subst hx
        exact chPre_idlines_agent a
  · intro hu
    have hub : (k.url != "") = true := bne_iff_ne.mpr hu
    have hshape : renderHost dir agent k =
        ("Host " ++ joinSpace k.labels) :: ("  HostName " ++ k.url) ::
          ((if k.user != "" then ["  User " ++ k.user] else []) ++
            (match agent with
             | some a => ["  IdentityAgent " ++ a]
             | none => [])) := by
      simp [renderHost, hpk, hub]
    rw [hshape]
    refine ⟨List.mem_cons_of_mem _ (List.mem_cons_self _ _), ?_⟩
    simp

theorem noPublicKey_noIdentityFile_witness :
    ({ id := "1", title := "Web Server", url := "db.example.com", user := "",
       labels := ["web"], publicKey := none } : ResolvedKey).publicKey = none ∧
    ("  HostName " ++ "db.example.com") ∈
      renderHost "/exports" (some "~/.1password/agent.sock")
        { id := "1", title := "Web Server", url := "db.example.com", user := "",
          labels := ["web"], publicKey := none } :=
  ⟨rfl, ((noPublicKey_noIdentityFile "/exports" (some "~/.1password/agent.sock")
    { id := "1", title := "Web Server", url := "db.example.com", user := "",
      labels := ["web"], publicKey := none } rfl).2 (by decide)).1⟩

/-- C7: config generation (and the whole import) is a pure function of
the resolved record list, the export directory, and the identity-agent
setting: two runs on equal inputs produce byte-identical content.
`writeHostFile` reads no clock, counter, or other hidden state
(lines 106-131). -/
theorem configGeneration_deterministic (cfg : Config) (inp : RawItem → Inputs)
    (fetch : RawItem → Option FetchedFields) (dir : String) (agent : Option String)
    (keys1 keys2 : List ProcessedKey) (items1 items2 : List RawItem)
    (hk : keys1 = keys2) (hi : items1 = items2) :
    writeHostFile dir agent keys1 = writeHostFile dir agent keys2 ∧
    runImport cfg inp fetch dir agent items1 = runImport cfg inp fetch dir agent items2 := by
  rw [hk, hi]
  exact ⟨rfl, rfl⟩

theorem configGeneration_deterministic_witness :
    [ProcessedKey.resolved
      { id := "1", title := "Web", url := "db.example.com", user := "",
        labels := ["web"], publicKey := some "PUB" }] =
      [ProcessedKey.resolved
        { id := "1", title := "Web", url := "db.example.com", user := "",
          labels := ["web"], publicKey := some "PUB" }] ∧
    writeHostFile "/exports" (some "AG")
        [ProcessedKey.resolved
          { id := "1", title := "Web", url := "db.example.com", user := "",
            labels := ["web"], publicKey := some "PUB" }] =
      writeHostFile "/exports" (some "AG")
        [ProcessedKey.resolved
          { id := "1", title := "Web", url := "db.example.com", user := "",
            labels := ["web"], publicKey := some "PUB" }] :=
  ⟨rfl, (configGeneration_deterministic ⟨"prompt", "prompt", "use-default"⟩
    (fun _ => ⟨"", "", ""⟩) (fun _ => none) "/exports" (some "AG") _ _
    [⟨"1", "Web"⟩] [⟨"1", "Web"⟩] rfl rfl).1⟩

/-- C9: the two-element labels default (line 93) is not re-normalized by
`_splitLabels`: with no URL under `urlaction` `leave-empty` and a
non-prompt labels policy, the resolved labels are
`[short-title, ""]` — the empty string stays as an alias token — and the
`Host` line (line 113) space-joins them into `"Host <short-title> "` with
a trailing space. -/
theorem defaultLabels_keepEmptyUrlToken (cfg : Config) (inp : Inputs) (k : FetchedKey)
    (dir : String) (agent : Option String)
    (hurl : falsy k.url = true) (hua : cfg.urlaction = "leave-empty")
    (hl : falsy k.labels = true) (hp : cfg.labelsaction ≠ "prompt") :
    (handleMissingFields cfg inp k).labels = [getShortTitle k.title, ""] ∧
    (renderHost dir agent (handleMissingFields cfg inp k)).head? =
      some ("Host " ++ getShortTitle k.title ++ " ") := by
  have hpb : (cfg.labelsaction == "prompt") = false := beq_eq_false_iff_ne.mpr hp
  have huab : (cfg.urlaction == "prompt") = false := by
    rw [hua]; decide
  have hlab : (handleMissingFields cfg inp k).labels = [getShortTitle k.title, ""] := by
    simp [handleMissingFields, hl, hurl, hpb, huab]
  refine ⟨hlab, ?_⟩
  have hj : joinSpace [getShortTitle k.title, ""] = getShortTitle k.title ++ " " := by
    show getShortTitle k.title ++ " " ++ "" = getShortTitle k.title ++ " "
    exact str_append_empty _
  have hhead : "Host " ++ joinSpace [getShortTitle k.title, ""] =
      "Host " ++ getShortTitle k.title ++ " " := by
    rw [hj, str_append_assoc]
  simp [renderHost, hlab, hhead]

theorem defaultLabels_keepEmptyUrlToken_witness :
    falsy (none : Option String) = true ∧
    (handleMissingFields ⟨"leave-empty", "leave-empty", "use-default"⟩ ⟨"", "", ""⟩
        { id := "1", title := "Server 1", url := none, user := none,
          labels := none, publicKey := some "PUB" }).labels = ["server1", ""] := by
  refine ⟨rfl, ?_⟩
  have h := (defaultLabels_keepEmptyUrlToken ⟨"leave-empty", "leave-empty", "use-default"⟩
    ⟨"", "", ""⟩
    { id := "1", title := "Server 1", url := none, user := none,
      labels := none, publicKey := some "PUB" } "/exports" none rfl rfl rfl
    (by decide)).1
  rw [h]
  rfl

/-- C10: the export path depends on the title only through the sanitized
short-title (line 64), so two records whose titles collide after
sanitization are written to the same `<short-title>.pub` path, and the
later write overwrites the earlier one. -/
theorem sameShortTitle_samePath_overwrite (dir : String) (k1 k2 : ResolvedKey)
    (p1 p2 : String) (ht : getShortTitle k1.title = getShortTitle k2.title)
    (h1 : k1.publicKey = some p1) (h2 : k2.publicKey = some p2) :
    exportPath dir k1.title = exportPath dir k2.title ∧
    finalFiles dir [ProcessedKey.resolved k1, ProcessedKey.resolved k2]
      (exportPath dir k1.title) = some p2 := by
  have hpath : exportPath dir k1.title = exportPath dir k2.title := by
    unfold exportPath
    rw [ht]
  refine ⟨hpath, ?_⟩
  simp [finalFiles, exportWrites, applyWrites, h1, h2, hpath]

theorem sameShortTitle_samePath_overwrite_witness :
    getShortTitle "Server-1" = getShortTitle "server 1" ∧
    finalFiles "/exports"
        [ProcessedKey.resolved
          { id := "1", title := "Server-1", url := "", user := "",
            labels := ["a"], publicKey := some "PUB1" },
         ProcessedKey.resolved
          { id := "2", title := "server 1", url := "", user := "",
            labels := ["b"], publicKey := some "PUB2" }]
        (exportPath "/exports" "Server-1") = some "PUB2" :=
  ⟨rfl, (sameShortTitle_samePath_overwrite "/exports"
    { id := "1", title := "Server-1", url := "", user := "",
      labels := ["a"], publicKey := some "PUB1" }
    { id := "2", title := "server 1", url := "", user := "",
      labels := ["b"], publicKey := some "PUB2" } "PUB1" "PUB2" rfl rfl rfl).2⟩

theorem parseLoop_cons_offending (arg : String) (hoff : offending arg = true)
    (ua urla la : String) (rest : List String) :
    parseLoop (arg :: rest) ua urla la = ParseResult.exitCode 1 := by
  simp only [offending] at hoff
  simp only [parseLoop]
  split_ifs at hoff ⊢ <;> simp_all

theorem parseLoop_cons_ok (arg : String) (hoff : offending arg = false)
    (ua urla la : String) (rest : List String) :
    ∃ ua2 urla2 la2, parseLoop (arg :: rest) ua urla la = parseLoop rest ua2 urla2 la2 := by
  simp only [offending] at hoff
  simp only [parseLoop]
  split_ifs at hoff ⊢ <;> first
    | exact ⟨_, _, _, rfl⟩
    | simp_all

theorem parseLoop_exit_of_offending (args : List String) :
    ∀ (ua urla la a : String), a ∈ args → offending a = true →
    parseLoop args ua urla la = ParseResult.exitCode 1 := by
  induction args with
  | nil =>
    intro ua urla la a ha _
    exact absurd ha (List.not_mem_nil a)
  | cons arg rest ih =>
    intro ua urla la a ha hoff
    rcases List.mem_cons.mp ha with rfl | hmem
    · exact parseLoop_cons_offending a hoff ua urla la rest
    · by_cases hargoff : offending arg = true
      · exact parseLoop_cons_offending arg hargoff ua urla la rest
      · rcases parseLoop_cons_ok arg (by simpa using hargoff) ua urla la rest with
          ⟨u2, r2, l2, heq⟩
        rw [heq]
        exact ih u2 r2 l2 a hmem hoff

/-- C8 (corrected): the claim fails when `--help` is also present, since
the `--help` check (line 149) runs before the validation loop: the
process prints usage and exits 0, reporting no error, even though the
invocation contains the invalid value `--if-url-empty=bogus`. -/
theorem helpMasks_invalidFlag :
    offending "--if-url-empty=bogus" = true ∧
    mainProgram ["--help", "--if-url-empty=bogus"] (fun _ => ⟨"", "", ""⟩)
      (fun _ => none) "/exports" none [] = MainResult.exited 0 :=
  ⟨by decide, rfl⟩

/-- C8 (amended): for every invocation NOT containing `--help`, if some
argument is one the validation loop rejects — a `--if-url-empty=` or
`--if-labels-empty=` value outside its allowed set, or an argument
matching no flag prefix — the process exits 1 from the argument loop
(lines 176-188), before any vault access, export, or config write
(`MainResult.exited` carries no outputs). -/
theorem invalidArg_exitsOne (argv : List String) (a : String)
    (hh : "--help" ∉ argv) (ha : a ∈ argv) (hoff : offending a = true)
    (inp : RawItem → Inputs) (fetch : RawItem → Option FetchedFields)
    (dir : String) (agent : Option String) (items : List RawItem) :
    mainProgram argv inp fetch dir agent items = MainResult.exited 1 := by
  have hp : parseArgs argv = ParseResult.exitCode 1 := by
    rw [parseArgs, if_neg (by simpa using hh)]
    exact parseLoop_exit_of_offending argv "prompt" "prompt" "use-default" a ha hoff
  simp [mainProgram, hp]

theorem invalidArg_exitsOne_witness :
    "--help" ∉ ["--if-url-empty=bogus"] ∧
    mainProgram ["--if-url-empty=bogus"] (fun _ => ⟨"", "", ""⟩) (fun _ => none)
      "/exports" none [⟨"1", "Key"⟩] = MainResult.exited 1 :=
  ⟨by decide, invalidArg_exitsOne ["--if-url-empty=bogus"] "--if-url-empty=bogus"
    (by decide) (by decide) (by decide) (fun _ => ⟨"", "", ""⟩) (fun _ => none)
    "/exports" none [⟨"1", "Key"⟩]⟩

end UpdateSSH
